import Mathlib

/-!
Verification development for the CardLuxeBot transaction broker (`bot.js`).

The program is a chat bot: users run a sale-intake flow (intent → amount →
counterparty → proof images → /done), an administrator approves or rejects the
resulting transaction via inline buttons, and a post-approval handler collects
or confirms the user's account details and marks the transaction completed.

The embedding below translates the stateful parts of `bot.js` into pure Lean
functions: the SQLite tables become lists inside `BotState`, the per-chat
session flow becomes an association list from user id to `SaleFlow`, and every
Telegram update becomes an `Event` processed by `handleEvent`, which returns
the new state together with the list of outbound messages.  Handlers are
applied in the registration order of the source file (middleware, `bot.start`,
the two `bot.hears`, the flow text handler, `bot.command('done')`, the
post-approval text handler, `bot.command('broadcast')`, `bot.command('help')`;
`bot.on('photo')` and `bot.action` only match their own update kinds).
Wall-clock timestamps are passed in as an external `now : Nat` parameter;
display-name fields (`username`, `full_name`), which the spec calls
informational only, are elided from the row model.
-/

/-- One proof attachment, as stored in `transactions.proof_files`
(`{ file_id, file_type: 'photo', date }` pushed by the photo handler). -/
structure Attachment where
  file_id : String
  file_type : String
  date : Nat
deriving DecidableEq, Repr

/-- A row of the `transactions` table.  `status` holds one of the string
literals `'pending'`, `'approved'`, `'rejected'`, `'completed'` exactly as the
code stores them; `admin_note` is NULL until the first status update. -/
structure Transaction where
  id : Nat
  user_id : Nat
  type : String
  amount : Option String
  currency_or_card : Option String
  status : String
  proof_files : List Attachment
  created_at : Nat
  admin_note : Option String
deriving DecidableEq, Repr

/-- Account details: the JSON object stored in `users.account_details`,
as an insertion-ordered key/value list (JS object semantics). -/
abbrev Details := List (String × String)

/-- A row of the `users` table (display-name columns elided). -/
structure UserRow where
  id : Nat
  account_details : Option Details
  created_at : Nat
deriving DecidableEq, Repr

/-- The ephemeral per-user session flow (`ctx.session.flow`).  The code names
the step after intent selection `'choose_type'` (it is the step awaiting the
amount), then `'currency'`, then `'await_proof'`. -/
structure SaleFlow where
  step : String
  type : String
  amount : Option String
  currency_or_card : Option String
  proof : List Attachment
deriving DecidableEq, Repr

/-- The whole mutable state of the program: the two SQLite tables, the
per-user session flows, and the AUTOINCREMENT counter for transaction ids. -/
structure BotState where
  users : List UserRow
  txs : List Transaction
  flows : List (Nat × SaleFlow)
  nextId : Nat
deriving DecidableEq, Repr

/-- An inbound Telegram update.  `action` is a callback query already matched
by the pattern `^(approve|reject):(\d+)$`, so it carries the decision as a
`Bool` (`true` = approve) and the parsed transaction id. -/
inductive Event where
  | text (fromId : Nat) (content : String)
  | photo (fromId : Nat) (fileId : String)
  | action (fromId : Nat) (approve : Bool) (txId : Nat)
deriving DecidableEq, Repr

/-- An outbound effect on the messaging gateway. -/
inductive Output where
  | reply (chatId : Nat) (text : String)
  | send (chatId : Nat) (text : String)
  | sendPhoto (chatId : Nat) (caption : String)
  | sendMediaGroup (chatId : Nat) (count : Nat)
  | editMessage (text : String)
  | answerCb (text : String) (alert : Bool)
deriving DecidableEq, Repr

/-- Sender id of an update (`ctx.from.id`). -/
def Event.fromId : Event → Nat
  | .text u _ => u
  | .photo u _ => u
  | .action u _ _ => u

/-- Whether the update is an admin callback action. -/
def Event.isAction : Event → Bool
  | .action _ _ _ => true
  | _ => false

/-! ## Executable string primitives

The JS string operations (`trim`, `toLowerCase`, `toUpperCase`, `includes`,
`split`, `indexOf`/`slice`) are modelled on the character list underlying a
`String`, so that every definition evaluates by kernel reduction. -/

/-- `needle` is a leading segment of `hay`. -/
def leadMatch : List Char → List Char → Bool
  | [], _ => true
  | _ :: _, [] => false
  | n :: ns, h :: hs => n == h && leadMatch ns hs

/-- `hay` contains `needle` as a contiguous segment (JS `includes`). -/
def hasSub (needle hay : List Char) : Bool :=
  match hay with
  | [] => needle.isEmpty
  | _ :: rest => leadMatch needle hay || hasSub needle rest

/-- JS `toLowerCase` (ASCII-adequate for the keyword matching it serves). -/
def strLower (s : String) : String :=
  ⟨s.data.map Char.toLower⟩

/-- JS `toUpperCase`. -/
def strUpper (s : String) : String :=
  ⟨s.data.map Char.toUpper⟩

/-- JS `trim`: strip leading and trailing whitespace. -/
def strTrim (s : String) : String :=
  ⟨((s.data.dropWhile Char.isWhitespace).reverse.dropWhile Char.isWhitespace).reverse⟩

/-- JS `includes(c)` for a single character. -/
def containsChar (s : String) (c : Char) : Bool :=
  s.data.any (fun ch => ch == c)

/-- Split on a separator character (JS `split('\n')` semantics: keeps empty
pieces, yields one piece for the empty string). -/
def splitCharAux (c : Char) : List Char → List Char → List String
  | [], cur => [⟨cur.reverse⟩]
  | ch :: rest, cur =>
    if ch == c then ⟨cur.reverse⟩ :: splitCharAux c rest []
    else splitCharAux c rest (ch :: cur)

/-- JS `s.split(c)`. -/
def splitChar (c : Char) (s : String) : List String :=
  splitCharAux c s.data []

/-! ## Database statements -/

/-- `insertUserStmt` (`INSERT OR IGNORE INTO users ...`): the middleware
registers the sender idempotently on every update. -/
def insertSeen (us : List UserRow) (uid now : Nat) : List UserRow :=
  if us.any (fun r => r.id == uid) then us
  else us ++ [{ id := uid, account_details := none, created_at := now }]

/-- `getUserStmt` (`SELECT * FROM users WHERE id = ?`). -/
def getUser (us : List UserRow) (uid : Nat) : Option UserRow :=
  us.find? (fun r => r.id == uid)

/-- `upsertAccountStmt` (`UPDATE users SET account_details = ? WHERE id = ?`). -/
def upsertAccount (us : List UserRow) (uid : Nat) (d : Details) : List UserRow :=
  us.map (fun r => if r.id == uid then { r with account_details := some d } else r)

/-- The user's stored account details, if any (`user && user.account_details`,
then `JSON.parse`; the program only ever stores objects it serialized itself,
so parsing is modelled as the identity on the stored mapping). -/
def savedOf (us : List UserRow) (uid : Nat) : Option Details :=
  (getUser us uid).bind (fun r => r.account_details)

/-- `getTxByIdStmt` (`SELECT * FROM transactions WHERE id = ?`). -/
def getTxById (ts : List Transaction) (i : Nat) : Option Transaction :=
  ts.find? (fun t => t.id == i)

/-- `updateTxStatusStmt`
(`UPDATE transactions SET status = ?, admin_note = ? WHERE id = ?`). -/
def updateTxStatus (ts : List Transaction) (i : Nat) (st note : String) :
    List Transaction :=
  ts.map (fun t => if t.id == i then { t with status := st, admin_note := some note } else t)

/-- The inline query of the post-approval handler
(`SELECT * FROM transactions WHERE user_id = ? AND status = 'approved'
ORDER BY id DESC LIMIT 1`). -/
def latestApproved (ts : List Transaction) (uid : Nat) : Option Transaction :=
  (ts.filter (fun t => t.user_id == uid && t.status == "approved")).foldl
    (fun acc t =>
      match acc with
      | none => some t
      | some b => if b.id < t.id then some t else some b)
    none

/-! ## SaleFlow session access -/

/-- Read `ctx.session.flow` for a user. -/
def getFlow (fs : List (Nat × SaleFlow)) (uid : Nat) : Option SaleFlow :=
  (fs.find? (fun p => p.1 == uid)).map (fun p => p.2)

/-- Write (or clear, with `none`) `ctx.session.flow` for a user. -/
def setFlow (fs : List (Nat × SaleFlow)) (uid : Nat) : Option SaleFlow → List (Nat × SaleFlow)
  | none => fs.filter (fun p => !(p.1 == uid))
  | some f => (uid, f) :: fs.filter (fun p => !(p.1 == uid))

/-! ## Account-details parsing (post-approval handler, key:value branch) -/

/-- JS object assignment `obj[k] = v`: overwrite in place if the key exists,
otherwise append (insertion order preserved). -/
def objInsert (obj : Details) (k v : String) : Details :=
  if obj.any (fun kv => kv.1 == k) then
    obj.map (fun kv => if kv.1 == k then (k, v) else kv)
  else obj ++ [(k, v)]

/-- One line of the key:value parser: `idx = line.indexOf(':')`; only lines
with `idx > 0` and a non-empty trimmed key contribute
(`const k = line.slice(0, idx).trim(); const v = line.slice(idx + 1).trim();
if (k) obj[k] = v;`). -/
def parseLine (obj : Details) (line : String) : Details :=
  match line.data.findIdx? (fun ch => ch == ':') with
  | none => obj
  | some 0 => obj
  | some (n + 1) =>
    let k := strTrim ⟨line.data.take (n + 1)⟩
    let v := strTrim ⟨line.data.drop (n + 2)⟩
    if k = "" then obj else objInsert obj k v

/-- The whole parser: `text.split('\n').map(l => l.trim()).filter(Boolean)`
folded through `parseLine`. -/
def parseDetails (text : String) : Details :=
  (((splitChar '\n' text).map strTrim).filter (fun l => l ≠ "")).foldl parseLine []

/-! ## Trigger predicates (handler matching) -/

/-- Telegraf command matching: the text is `/name`, `/name <args>` or
`/name@bot...`. -/
def isCmd (name t : String) : Bool :=
  t == "/" ++ name || leadMatch ("/" ++ name ++ " ").data t.data ||
    leadMatch ("/" ++ name ++ "@").data t.data

/-- `bot.hears(/^My Account$/i)`. -/
def hearsMyAccount (t : String) : Bool :=
  strLower t == "my account"

/-- `bot.hears(/^(Sell Crypto|Sell Giftcard)$/i)`. -/
def hearsSell (t : String) : Bool :=
  strLower t == "sell crypto" || strLower t == "sell giftcard"

/-! ## Message texts -/

def welcomeMsg : String :=
  "Welcome!\nI can help you sell crypto or gift cards.\nChoose an option below."

def myAccountNoneMsg : String :=
  "No account details saved. You will be prompted after your first approved transaction."

/-- `Object.entries(account).map(([k,v]) => k + ': ' + v).join('\n')`. -/
def renderDetails (d : Details) : String :=
  String.intercalate "\n" (d.map (fun kv => kv.1 ++ ": " ++ kv.2))

def savedDetailsMsg (d : Details) : String :=
  "Saved account details:\n" ++ renderDetails d

def choseMsg (ty : String) : String :=
  "You chose to sell: " ++ ty ++ "\nPlease enter the amount (e.g., $10 or $50):"

def cryptoPrompt : String := "Which cryptocurrency? (e.g., BTC, USDT)"

def giftcardPrompt : String := "Which gift card? (e.g., iTunes $50, Google Play $25)"

def proofPrompt : String :=
  "Please upload proof image(s). For crypto: upload your payment proof. For giftcards: upload image of card AND receipt (if any). You can send multiple images one after another. When done, send /done."

def adminNoteMsg : String := "Admin note received."

def photoOutOfFlowMsg : String :=
  "I received a photo but you are not in a selling flow. Use \"Sell Crypto\" or \"Sell Giftcard\" to start."

def imageReceivedMsg : String :=
  "Image received. Send more images or /done when finished."

def notInSaleMsg : String :=
  "You are not in the middle of a sale. Start with \"Sell Crypto\" or \"Sell Giftcard\"."

def needProofMsg : String :=
  "Please upload at least one proof image before sending /done."

def pendingMsg : String :=
  "Your submission is pending admin approval. You will be prompted for account details if approved. Thank you!"

/-- Admin caption for a freshly submitted transaction (the user display-name
label is elided; the inline approve/reject keyboard is an effect on the
gateway, not state). -/
def newSaleCaption (tx : Transaction) : String :=
  "New " ++ tx.type.toUpper ++ " sale (ID: " ++ toString tx.id ++ ")\nAmount: " ++
    (tx.amount.getD "") ++ "\nType: " ++ (tx.currency_or_card.getD "") ++
    "\nStatus: pending\n\nProof images are attached below. Use the buttons to Approve or Reject."

def onlyAdminActionMsg : String := "Only admin can perform this action."

def txNotFoundMsg : String := "Transaction not found."

def rejectedEditMsg (i : Nat) : String :=
  "Transaction " ++ toString i ++ " has been REJECTED by admin."

def rejectedUserMsg (i : Nat) : String :=
  "Your transaction (ID: " ++ toString i ++ ") was rejected by the admin. You may contact support for details."

def approvedEditMsg (i : Nat) : String :=
  "Transaction " ++ toString i ++ " has been APPROVED by admin."

def approvedConfirmPrompt (i : Nat) (d : Details) : String :=
  "Your transaction (ID: " ++ toString i ++ ") was approved.\nWe have saved account details:\n" ++
    renderDetails d ++
    "\n\nReply \"CONFIRM\" to use these details, or send new account details in the format:\nfield1:value1\nfield2:value2"

def approvedNewDetailsPrompt (i : Nat) : String :=
  "Your transaction (ID: " ++ toString i ++ ") was approved.\nPlease send your account details now in the format (each on new line):\naccount_name:John Doe\naccount_number:0123456789\nbank:ABC Bank\n\nOr send any payment receiving details your prefer."

def approvedAdminSummary (tx : Transaction) (saved : Option Details) : String :=
  "Transaction " ++ toString tx.id ++ " APPROVED.\nFrom user: " ++ toString tx.user_id ++
    "\nAmount: " ++ (tx.amount.getD "") ++ "\nType: " ++ (tx.currency_or_card.getD "") ++ "\n\n" ++
    (match saved with
     | some d => "Saved account details:\n" ++ renderDetails d
     | none => "No saved account details for this user.") ++
    "\n\nProof file_ids:\n" ++ String.intercalate "\n" (tx.proof_files.map (fun p => p.file_id))

def confirmThanksMsg : String :=
  "Thanks — your saved details have been attached to the transaction. Admin has been notified."

def confirmAdminMsg (i uid : Nat) (d : Details) : String :=
  "Transaction " ++ toString i ++ " completed. User " ++ toString uid ++
    " confirmed saved details:\n" ++ renderDetails d

def parseFailMsg : String :=
  "Could not parse account details. Use format key:value each on its own line."

def detailsThanksMsg : String :=
  "Thanks! Your account details were saved and sent to the admin."

def detailsAdminMsg (i uid : Nat) (d : Details) : String :=
  "Transaction " ++ toString i ++ " completed by user " ++ toString uid ++
    ". Account details:\n" ++ renderDetails d

def onlyAdminBroadcastMsg : String := "Only admin can use this command."

def broadcastUsageMsg : String := "Usage: /broadcast Your message here"

def helpMsg : String :=
  "Commands:\n/start\nSell Crypto\nSell Giftcard\nMy Account\n/admin commands: /broadcast <message>"

/-! ## Handlers, in registration order -/

/-- `bot.hears(/^My Account$/i)`: render stored details or explain none. -/
def myAccountHandler (s : BotState) (uid : Nat) : BotState × List Output :=
  match savedOf s.users uid with
  | none => (s, [.reply uid myAccountNoneMsg])
  | some d => (s, [.reply uid (savedDetailsMsg d)])

/-- `ctx.message.text.toLowerCase().includes('crypto') ? 'crypto' : 'giftcard'`. -/
def sellType (raw : String) : String :=
  if hasSub "crypto".data (strLower raw).data then "crypto" else "giftcard"

/-- The flow created by an intent selection. -/
def freshFlow (ty : String) : SaleFlow :=
  { step := "choose_type", type := ty, amount := none,
    currency_or_card := none, proof := [] }

/-- `bot.hears(/^(Sell Crypto|Sell Giftcard)$/i)`: initialize the flow at step
`'choose_type'` with the category taken from the text. -/
def sellHandler (s : BotState) (uid : Nat) (raw : String) : BotState × List Output :=
  ({ s with flows := setFlow s.flows uid (some (freshFlow (sellType raw))) },
   [.reply uid (choseMsg (sellType raw))])

/-- The transaction row built by `/done` (`status: 'pending'`, id from
AUTOINCREMENT). -/
def newTx (i uid : Nat) (flow : SaleFlow) (now : Nat) : Transaction :=
  { id := i, user_id := uid, type := flow.type, amount := flow.amount,
    currency_or_card := flow.currency_or_card, status := "pending",
    proof_files := flow.proof, created_at := now, admin_note := none }

/-- `bot.command('done')`: finalize the transaction and notify the admin, or
reject with guidance when the flow or the proof list is missing. -/
def doneHandler (admin now : Nat) (s : BotState) (uid : Nat) : BotState × List Output :=
  match getFlow s.flows uid with
  | none => (s, [.reply uid notInSaleMsg])
  | some flow =>
    if flow.step ≠ "await_proof" then (s, [.reply uid notInSaleMsg])
    else if flow.proof = [] then (s, [.reply uid needProofMsg])
    else
      let tx := newTx s.nextId uid flow now
      let adminOuts : List Output :=
        if flow.proof.length == 1 then [.sendPhoto admin (newSaleCaption tx)]
        else [.sendMediaGroup admin flow.proof.length, .send admin (newSaleCaption tx)]
      ({ s with txs := s.txs ++ [tx], nextId := s.nextId + 1,
                flows := setFlow s.flows uid none },
       adminOuts ++ [.reply uid pendingMsg])

/-- The post-approval text handler (`bot.on('text')`, second registration):
confirm saved details or parse new `key:value` lines for the user's latest
approved transaction; otherwise fall through to `broadcast`/`help`. -/
def reconcilerHandler (admin now : Nat) (s : BotState) (uid : Nat) (raw : String)
    (fallthrough : BotState × List Output) : BotState × List Output :=
  let text := strTrim raw
  let saved := savedOf s.users uid
  match latestApproved s.txs uid with
  | some la =>
    if strUpper text = "CONFIRM" ∧ saved.isSome then
      ({ s with txs := updateTxStatus s.txs la.id "completed"
                  ("User confirmed saved details at " ++ toString now) },
       [.reply uid confirmThanksMsg,
        .send admin (confirmAdminMsg la.id uid (saved.getD []))])
    else if containsChar text ':' then
      let obj := parseDetails text
      if obj = [] then (s, [.reply uid parseFailMsg])
      else
        ({ s with users := upsertAccount s.users uid obj,
                  txs := updateTxStatus s.txs la.id "completed"
                    ("User provided details at " ++ toString now) },
         [.reply uid detailsThanksMsg, .send admin (detailsAdminMsg la.id uid obj)])
    else fallthrough
  | none => fallthrough

/-- `bot.command('broadcast')`: admin-only iteration over all users. -/
def broadcastHandler (admin : Nat) (s : BotState) (uid : Nat) (raw : String) :
    BotState × List Output :=
  if uid ≠ admin then (s, [.reply uid onlyAdminBroadcastMsg])
  else
    let text := strTrim ⟨raw.data.drop "/broadcast".data.length⟩
    if text = "" then (s, [.reply uid broadcastUsageMsg])
    else
      (s, (s.users.map (fun u => Output.send u.id ("📣 Broadcast:\n\n" ++ text))) ++
          [.reply uid ("Broadcast sent to ~" ++ toString s.users.length ++ " users.")])

/-- Everything registered after the post-approval handler that can match a
text update: `/broadcast`, `/help`, then nothing (an unmatched text gets no
reply at all). -/
def tailTextHandlers (admin : Nat) (s : BotState) (uid : Nat) (raw : String) :
    BotState × List Output :=
  if isCmd "broadcast" raw then broadcastHandler admin s uid raw
  else if isCmd "help" raw then (s, [.reply uid helpMsg])
  else (s, [])

/-- The text handlers that run when the flow text handler falls through:
`bot.command('done')`, the post-approval handler, then the tail. -/
def afterFlowText (admin now : Nat) (s : BotState) (uid : Nat) (raw : String) :
    BotState × List Output :=
  if isCmd "done" raw then doneHandler admin now s uid
  else reconcilerHandler admin now s uid raw (tailTextHandlers admin s uid raw)

/-- The first `bot.on('text')` handler: the sale-flow steps.  `'choose_type'`
stores the trimmed text as the amount, `'currency'` stores the counterparty;
otherwise it calls `next()`. -/
def flowTextHandler (admin now : Nat) (s : BotState) (uid : Nat) (raw : String) :
    BotState × List Output :=
  match getFlow s.flows uid with
  | none => afterFlowText admin now s uid raw
  | some flow =>
    let text := strTrim raw
    if flow.step = "choose_type" then
      let f := { flow with amount := some text, step := "currency" }
      ({ s with flows := setFlow s.flows uid (some f) },
       [.reply uid (if flow.type = "crypto" then cryptoPrompt else giftcardPrompt)])
    else if flow.step = "currency" then
      let f := { flow with currency_or_card := some text, step := "await_proof" }
      ({ s with flows := setFlow s.flows uid (some f) }, [.reply uid proofPrompt])
    else if flow.step = "await_admin_note" ∧ uid = admin then
      (s, [.reply uid adminNoteMsg])
    else afterFlowText admin now s uid raw

/-- Full dispatch for a text update, in registration order: `bot.start`,
`bot.hears(My Account)`, `bot.hears(Sell ...)`, the flow text handler and its
fall-through chain. -/
def handleText (admin now : Nat) (s : BotState) (uid : Nat) (raw : String) :
    BotState × List Output :=
  if isCmd "start" raw then (s, [.reply uid welcomeMsg])
  else if hearsMyAccount raw then myAccountHandler s uid
  else if hearsSell raw then sellHandler s uid raw
  else flowTextHandler admin now s uid raw

/-- `bot.on('photo')`: append the largest photo variant while awaiting proof,
otherwise reply with guidance. -/
def photoHandler (now : Nat) (s : BotState) (uid : Nat) (fileId : String) :
    BotState × List Output :=
  match getFlow s.flows uid with
  | none => (s, [.reply uid photoOutOfFlowMsg])
  | some flow =>
    if flow.step ≠ "await_proof" then (s, [.reply uid photoOutOfFlowMsg])
    else
      let f := { flow with
                 proof := flow.proof ++ [{ file_id := fileId, file_type := "photo", date := now }] }
      ({ s with flows := setFlow s.flows uid (some f) }, [.reply uid imageReceivedMsg])

/-- `bot.action(/^(approve|reject):(\d+)$/)`: the admin decision handler. -/
def actionHandler (admin now : Nat) (s : BotState) (uid : Nat) (approve : Bool)
    (txId : Nat) : BotState × List Output :=
  if uid ≠ admin then (s, [.answerCb onlyAdminActionMsg true])
  else
    match getTxById s.txs txId with
    | none => (s, [.answerCb txNotFoundMsg true])
    | some txRow =>
      if approve = false then
        ({ s with txs := updateTxStatus s.txs txId "rejected"
                    ("Rejected by admin " ++ toString uid ++ " at " ++ toString now) },
         [.editMessage (rejectedEditMsg txId),
          .send txRow.user_id (rejectedUserMsg txId),
          .answerCb "Rejected." false])
      else
        let note := "Approved by admin " ++ toString uid ++ " at " ++ toString now
        let s' := { s with txs := updateTxStatus s.txs txId "approved" note }
        let saved := savedOf s.users txRow.user_id
        let userOut : Output :=
          match saved with
          | some d =>
            if d.isEmpty then Output.send txRow.user_id (approvedNewDetailsPrompt txId)
            else Output.send txRow.user_id (approvedConfirmPrompt txId d)
          | none => Output.send txRow.user_id (approvedNewDetailsPrompt txId)
        (s', [.editMessage (approvedEditMsg txId), userOut,
              .send admin (approvedAdminSummary txRow saved),
              .answerCb "Approved." false])

/-- One full update cycle: the user-registration middleware
(`insertUserStmt`, run for every update kind), then the matching handler. -/
def handleEvent (admin now : Nat) (s : BotState) (e : Event) : BotState × List Output :=
  let s1 := { s with users := insertSeen s.users e.fromId now }
  match e with
  | .text uid raw => handleText admin now s1 uid raw
  | .photo uid fid => photoHandler now s1 uid fid
  | .action uid ap txId => actionHandler admin now s1 uid ap txId

/-- The empty initial state (fresh database, AUTOINCREMENT starts at 1). -/
def initState : BotState :=
  { users := [], txs := [], flows := [], nextId := 1 }

/-- Run a sequence of events, threading the state and an external clock. -/
def runEvents (admin : Nat) (s : BotState) (es : List Event) (now : Nat) : BotState :=
  match es with
  | [] => s
  | e :: rest => runEvents admin (handleEvent admin now s e).1 rest (now + 1)

/-- A state is reachable when some event sequence produces it from the fresh
database. -/
def Reachable (admin : Nat) (s : BotState) : Prop :=
  ∃ es : List Event, runEvents admin initState es 0 = s

/-- The Approval Coordinator's saved-details check
(`saved && Object.keys(saved).length > 0`, line 245). -/
def coordinatorSavedCheck (saved : Option Details) : Bool :=
  match saved with
  | none => false
  | some d => !d.isEmpty

/-- The Reconciler's saved-details check (truthiness of `saved`, line 279). -/
def reconcilerSavedCheck (saved : Option Details) : Bool :=
  saved.isSome

/-! ## Basic lemmas about the state helpers -/

theorem getFlow_setFlow_some (fs : List (Nat × SaleFlow)) (uid : Nat) (f : SaleFlow) :
    getFlow (setFlow fs uid (some f)) uid = some f := by
  simp [getFlow, setFlow]

theorem getFlow_setFlow_none (fs : List (Nat × SaleFlow)) (uid : Nat) :
    getFlow (setFlow fs uid none) uid = none := by
  simp only [getFlow, setFlow]
  have h : (fs.filter (fun p => !(p.1 == uid))).find? (fun p => p.1 == uid) = none := by
    rw [List.find?_eq_none]
    intro x hx
    have hb := (List.mem_filter.mp hx).2
    simp at hb ⊢
    exact hb
  rw [h]
  rfl

theorem insertSeen_of_present {us : List UserRow} {uid : Nat} (now : Nat)
    (h : us.any (fun r => r.id == uid) = true) : insertSeen us uid now = us := by
  simp [insertSeen, h]

theorem any_of_savedOf_isSome {us : List UserRow} {uid : Nat}
    (h : (savedOf us uid).isSome = true) : us.any (fun r => r.id == uid) = true := by
  unfold savedOf getUser at h
  cases hf : us.find? (fun r => r.id == uid) with
  | none => rw [hf] at h; simp at h
  | some r =>
    have hmem := List.mem_of_find?_eq_some hf
    have hp := List.find?_some hf
    exact List.any_eq_true.mpr ⟨r, hmem, hp⟩

theorem savedOf_insertSeen (us : List UserRow) (uid now : Nat) :
    savedOf (insertSeen us uid now) uid = savedOf us uid := by
  by_cases h : us.any (fun r => r.id == uid) = true
  · rw [insertSeen_of_present now h]
  · have hn : us.find? (fun r => r.id == uid) = none := by
      rw [List.find?_eq_none]
      intro x hx hpx
      exact h (List.any_eq_true.mpr ⟨x, hx, hpx⟩)
    simp [insertSeen, h, savedOf, getUser, List.find?_append, hn]

theorem find?_map_of_pred_eq {α : Type} (f : α → α) (p : α → Bool)
    (h : ∀ a, p (f a) = p a) (l : List α) :
    (l.map f).find? p = (l.find? p).map f := by
  rw [List.find?_map]
  have hpf : p ∘ f = p := funext h
  rw [hpf]

theorem getTxById_updateTxStatus (ts : List Transaction) (i : Nat) (st note : String)
    (j : Nat) :
    getTxById (updateTxStatus ts i st note) j =
      (getTxById ts j).map
        (fun t => if t.id == i then { t with status := st, admin_note := some note } else t) := by
  unfold getTxById updateTxStatus
  apply find?_map_of_pred_eq
  intro a
  by_cases ha : (a.id == i) = true <;> simp [ha]

theorem latestApproved_spec {ts : List Transaction} {uid : Nat} {la : Transaction}
    (h : latestApproved ts uid = some la) :
    la ∈ ts ∧ la.user_id = uid ∧ la.status = "approved" := by
  have key : ∀ (l : List Transaction) (acc : Option Transaction) (x : Transaction),
      l.foldl (fun acc t =>
        match acc with
        | none => some t
        | some b => if b.id < t.id then some t else some b) acc = some x →
      x ∈ l ∨ acc = some x := by
    intro l
    induction l with
    | nil => intro acc x hx; exact Or.inr hx
    | cons t rest ih =>
      intro acc x hx
      rcases ih _ _ hx with hm | hacc
      · exact Or.inl (List.mem_cons_of_mem _ hm)
      · cases acc with
        | none =>
          simp at hacc
          exact Or.inl (hacc ▸ List.mem_cons_self t rest)
        | some b =>
          by_cases hb : b.id < t.id
          · simp [hb] at hacc
            exact Or.inl (hacc ▸ List.mem_cons_self t rest)
          · simp [hb] at hacc
            exact Or.inr (by rw [hacc])
  unfold latestApproved at h
  rcases key _ _ _ h with hm | hacc
  · rcases List.mem_filter.mp hm with ⟨hmem, hp⟩
    simp only [Bool.and_eq_true, beq_iff_eq] at hp
    exact ⟨hmem, hp.1, hp.2⟩
  · cases hacc

/-! ## Step lemmas: the effect of a single event on the state -/

theorem sell_step (admin now : Nat) (s : BotState) (uid : Nat) (raw : String)
    (h1 : isCmd "start" raw = false) (h2 : hearsMyAccount raw = false)
    (h3 : hearsSell raw = true) :
    handleEvent admin now s (.text uid raw) =
      ({ s with users := insertSeen s.users uid now,
                flows := setFlow s.flows uid (some (freshFlow (sellType raw))) },
       [.reply uid (choseMsg (sellType raw))]) := by
  simp [handleEvent, Event.fromId, handleText, sellHandler, h1, h2, h3]

theorem amount_step (admin now : Nat) (s : BotState) (uid : Nat) (raw : String)
    (flow : SaleFlow)
    (h1 : isCmd "start" raw = false) (h2 : hearsMyAccount raw = false)
    (h3 : hearsSell raw = false)
    (hf : getFlow s.flows uid = some flow) (hstep : flow.step = "choose_type") :
    handleEvent admin now s (.text uid raw) =
      ({ s with users := insertSeen s.users uid now,
                flows := setFlow s.flows uid
                  (some { flow with amount := some (strTrim raw), step := "currency" }) },
       [.reply uid (if flow.type = "crypto" then cryptoPrompt else giftcardPrompt)]) := by
  simp [handleEvent, Event.fromId, handleText, h1, h2, h3, flowTextHandler, hf, hstep]

theorem currency_step (admin now : Nat) (s : BotState) (uid : Nat) (raw : String)
    (flow : SaleFlow)
    (h1 : isCmd "start" raw = false) (h2 : hearsMyAccount raw = false)
    (h3 : hearsSell raw = false)
    (hf : getFlow s.flows uid = some flow) (hstep : flow.step = "currency") :
    handleEvent admin now s (.text uid raw) =
      ({ s with users := insertSeen s.users uid now,
                flows := setFlow s.flows uid
                  (some { flow with currency_or_card := some (strTrim raw), step := "await_proof" }) },
       [.reply uid proofPrompt]) := by
  simp [handleEvent, Event.fromId, handleText, h1, h2, h3, flowTextHandler, hf, hstep]

theorem photo_step (admin now : Nat) (s : BotState) (uid : Nat) (fid : String)
    (flow : SaleFlow)
    (hf : getFlow s.flows uid = some flow) (hstep : flow.step = "await_proof") :
    handleEvent admin now s (.photo uid fid) =
      ({ s with users := insertSeen s.users uid now,
                flows := setFlow s.flows uid
                  (some { flow with
                          proof := flow.proof ++
                            [{ file_id := fid, file_type := "photo", date := now }] }) },
       [.reply uid imageReceivedMsg]) := by
  simp [handleEvent, Event.fromId, photoHandler, hf, hstep]

theorem done_step (admin now : Nat) (s : BotState) (uid : Nat) (flow : SaleFlow)
    (hf : getFlow s.flows uid = some flow)
    (hstep : flow.step = "await_proof") (hp : flow.proof ≠ []) :
    handleEvent admin now s (.text uid "/done") =
      ({ s with users := insertSeen s.users uid now,
                txs := s.txs ++ [newTx s.nextId uid flow now],
                flows := setFlow s.flows uid none,
                nextId := s.nextId + 1 },
       (if flow.proof.length == 1 then
          [Output.sendPhoto admin (newSaleCaption (newTx s.nextId uid flow now))]
        else
          [Output.sendMediaGroup admin flow.proof.length,
           Output.send admin (newSaleCaption (newTx s.nextId uid flow now))]) ++
         [Output.reply uid pendingMsg]) := by
  have c1 : isCmd "start" "/done" = false := rfl
  have c2 : hearsMyAccount "/done" = false := rfl
  have c3 : hearsSell "/done" = false := rfl
  have c4 : isCmd "done" "/done" = true := rfl
  simp [handleEvent, Event.fromId, handleText, c1, c2, c3, flowTextHandler, hf, hstep,
        afterFlowText, c4, doneHandler, hp]

theorem confirm_step (admin now : Nat) (s : BotState) (uid : Nat) (raw : String)
    (la : Transaction)
    (h1 : isCmd "start" raw = false) (h2 : hearsMyAccount raw = false)
    (h3 : hearsSell raw = false) (h4 : isCmd "done" raw = false)
    (hf : getFlow s.flows uid = none)
    (hc : strUpper (strTrim raw) = "CONFIRM")
    (hs : (savedOf s.users uid).isSome = true)
    (hla : latestApproved s.txs uid = some la) :
    handleEvent admin now s (.text uid raw) =
      ({ s with txs := updateTxStatus s.txs la.id "completed"
                  ("User confirmed saved details at " ++ toString now) },
       [.reply uid confirmThanksMsg,
        .send admin (confirmAdminMsg la.id uid ((savedOf s.users uid).getD []))]) := by
  have hins : insertSeen s.users uid now = s.users :=
    insertSeen_of_present now (any_of_savedOf_isSome hs)
  simp [handleEvent, Event.fromId, handleText, h1, h2, h3, flowTextHandler, hf,
        afterFlowText, h4, reconcilerHandler, hins, hla, hc, hs]

theorem details_step (admin now : Nat) (s : BotState) (uid : Nat) (raw : String)
    (la : Transaction)
    (h1 : isCmd "start" raw = false) (h2 : hearsMyAccount raw = false)
    (h3 : hearsSell raw = false) (h4 : isCmd "done" raw = false)
    (hf : getFlow s.flows uid = none)
    (hc : strUpper (strTrim raw) ≠ "CONFIRM")
    (hcol : containsChar (strTrim raw) ':' = true)
    (hobj : parseDetails (strTrim raw) ≠ [])
    (hla : latestApproved s.txs uid = some la) :
    handleEvent admin now s (.text uid raw) =
      ({ s with users := upsertAccount (insertSeen s.users uid now) uid (parseDetails (strTrim raw)),
                txs := updateTxStatus s.txs la.id "completed"
                  ("User provided details at " ++ toString now) },
       [.reply uid detailsThanksMsg,
        .send admin (detailsAdminMsg la.id uid (parseDetails (strTrim raw)))]) := by
  simp [handleEvent, Event.fromId, handleText, h1, h2, h3, flowTextHandler, hf,
        afterFlowText, h4, reconcilerHandler, savedOf_insertSeen, hla, hc, hcol, hobj]

theorem zero_pair_step (admin now : Nat) (s : BotState) (uid : Nat) (raw : String)
    (la : Transaction)
    (h1 : isCmd "start" raw = false) (h2 : hearsMyAccount raw = false)
    (h3 : hearsSell raw = false) (h4 : isCmd "done" raw = false)
    (hf : getFlow s.flows uid = none)
    (hc : strUpper (strTrim raw) ≠ "CONFIRM")
    (hcol : containsChar (strTrim raw) ':' = true)
    (hobj : parseDetails (strTrim raw) = [])
    (hla : latestApproved s.txs uid = some la) :
    handleEvent admin now s (.text uid raw) =
      ({ s with users := insertSeen s.users uid now }, [.reply uid parseFailMsg]) := by
  simp [handleEvent, Event.fromId, handleText, h1, h2, h3, flowTextHandler, hf,
        afterFlowText, h4, reconcilerHandler, savedOf_insertSeen, hla, hc, hcol, hobj]

theorem decline_step (admin now : Nat) (s : BotState) (uid : Nat) (raw : String)
    (h1 : isCmd "start" raw = false) (h2 : hearsMyAccount raw = false)
    (h3 : hearsSell raw = false) (h4 : isCmd "done" raw = false)
    (h5 : isCmd "broadcast" raw = false) (h6 : isCmd "help" raw = false)
    (hf : getFlow s.flows uid = none)
    (hdecl : latestApproved s.txs uid = none ∨
      (¬(strUpper (strTrim raw) = "CONFIRM" ∧ (savedOf s.users uid).isSome = true) ∧
        containsChar (strTrim raw) ':' = false)) :
    handleEvent admin now s (.text uid raw) =
      ({ s with users := insertSeen s.users uid now }, []) := by
  rcases hdecl with hla | ⟨hnc, hcol⟩
  · simp [handleEvent, Event.fromId, handleText, h1, h2, h3, flowTextHandler, hf,
          afterFlowText, h4, reconcilerHandler, savedOf_insertSeen, hla,
          tailTextHandlers, h5, h6]
  · cases hla : latestApproved s.txs uid with
    | none =>
      simp [handleEvent, Event.fromId, handleText, h1, h2, h3, flowTextHandler, hf,
            afterFlowText, h4, reconcilerHandler, savedOf_insertSeen, hla,
            tailTextHandlers, h5, h6]
    | some la =>
      simp [handleEvent, Event.fromId, handleText, h1, h2, h3, flowTextHandler, hf,
            afterFlowText, h4, reconcilerHandler, savedOf_insertSeen, hla, hnc, hcol,
            tailTextHandlers, h5, h6]

theorem nonadmin_action_step (admin now : Nat) (s : BotState) (uid : Nat) (ap : Bool)
    (txId : Nat) (h : uid ≠ admin) :
    handleEvent admin now s (.action uid ap txId) =
      ({ s with users := insertSeen s.users uid now },
       [.answerCb onlyAdminActionMsg true]) := by
  simp [handleEvent, Event.fromId, actionHandler, h]

/-! ## What a single event can do to the transaction table -/

theorem getTxById_append_left {ts : List Transaction} {j : Nat} {t : Transaction}
    (h : getTxById ts j = some t) (ts' : List Transaction) :
    getTxById (ts ++ ts') j = some t := by
  unfold getTxById at h ⊢
  rw [List.find?_append, h]
  rfl

theorem txs_after_tail (admin : Nat) (s : BotState) (uid : Nat) (raw : String) :
    (tailTextHandlers admin s uid raw).1.txs = s.txs := by
  unfold tailTextHandlers broadcastHandler
  dsimp only
  repeat' split
  all_goals rfl

theorem txs_after_done (admin now : Nat) (s : BotState) (uid : Nat) :
    (doneHandler admin now s uid).1.txs = s.txs ∨
    (∃ flow, (doneHandler admin now s uid).1.txs = s.txs ++ [newTx s.nextId uid flow now]) := by
  unfold doneHandler
  dsimp only
  repeat' split
  all_goals
    first
      | exact Or.inl rfl
      | exact Or.inr ⟨_, rfl⟩

theorem txs_after_reconciler (admin now : Nat) (s : BotState) (uid : Nat) (raw : String)
    (ft : BotState × List Output) (hft : ft.1.txs = s.txs) :
    (reconcilerHandler admin now s uid raw ft).1.txs = s.txs ∨
    (∃ la note, latestApproved s.txs uid = some la ∧
      (reconcilerHandler admin now s uid raw ft).1.txs =
        updateTxStatus s.txs la.id "completed" note) := by
  unfold reconcilerHandler
  dsimp only
  repeat' split
  all_goals
    first
      | exact Or.inl hft
      | exact Or.inl rfl
      | exact Or.inr ⟨_, _, by assumption, rfl⟩

theorem txs_after_afterFlowText (admin now : Nat) (s : BotState) (uid : Nat) (raw : String) :
    (afterFlowText admin now s uid raw).1.txs = s.txs ∨
    (∃ flow, (afterFlowText admin now s uid raw).1.txs = s.txs ++ [newTx s.nextId uid flow now]) ∨
    (∃ la note, latestApproved s.txs uid = some la ∧
      (afterFlowText admin now s uid raw).1.txs =
        updateTxStatus s.txs la.id "completed" note) := by
  unfold afterFlowText
  split
  · rcases txs_after_done admin now s uid with h | ⟨flow, h⟩
    · exact Or.inl h
    · exact Or.inr (Or.inl ⟨flow, h⟩)
  · rcases txs_after_reconciler admin now s uid raw _ (txs_after_tail admin s uid raw) with
      h | ⟨la, note, hla, h⟩
    · exact Or.inl h
    · exact Or.inr (Or.inr ⟨la, note, hla, h⟩)

theorem txs_after_handleText (admin now : Nat) (s : BotState) (uid : Nat) (raw : String) :
    (handleText admin now s uid raw).1.txs = s.txs ∨
    (∃ flow, (handleText admin now s uid raw).1.txs = s.txs ++ [newTx s.nextId uid flow now]) ∨
    (∃ la note, latestApproved s.txs uid = some la ∧
      (handleText admin now s uid raw).1.txs = updateTxStatus s.txs la.id "completed" note) := by
  unfold handleText myAccountHandler sellHandler flowTextHandler
  dsimp only
  repeat' split
  all_goals
    first
      | exact Or.inl rfl
      | exact txs_after_afterFlowText admin now s uid raw

theorem txs_after_photo (now : Nat) (s : BotState) (uid : Nat) (fid : String) :
    (photoHandler now s uid fid).1.txs = s.txs := by
  unfold photoHandler
  dsimp only
  repeat' split
  all_goals rfl

/-! ## What a single event can do to the users table -/

theorem users_after_tail (admin : Nat) (s : BotState) (uid : Nat) (raw : String) :
    (tailTextHandlers admin s uid raw).1.users = s.users := by
  unfold tailTextHandlers broadcastHandler
  dsimp only
  repeat' split
  all_goals rfl

theorem users_after_done (admin now : Nat) (s : BotState) (uid : Nat) :
    (doneHandler admin now s uid).1.users = s.users := by
  unfold doneHandler
  dsimp only
  repeat' split
  all_goals rfl

theorem users_after_reconciler (admin now : Nat) (s : BotState) (uid : Nat) (raw : String)
    (ft : BotState × List Output) (hft : ft.1.users = s.users) :
    (reconcilerHandler admin now s uid raw ft).1.users = s.users ∨
    (∃ obj, obj = parseDetails (strTrim raw) ∧ obj ≠ [] ∧
      (reconcilerHandler admin now s uid raw ft).1.users = upsertAccount s.users uid obj) := by
  unfold reconcilerHandler
  dsimp only
  repeat' split
  all_goals
    first
      | exact Or.inl hft
      | exact Or.inl rfl
      | exact Or.inr ⟨_, rfl, by assumption, rfl⟩

theorem users_after_handleText (admin now : Nat) (s : BotState) (uid : Nat) (raw : String) :
    (handleText admin now s uid raw).1.users = s.users ∨
    (∃ obj, obj = parseDetails (strTrim raw) ∧ obj ≠ [] ∧
      (handleText admin now s uid raw).1.users = upsertAccount s.users uid obj) := by
  have hAfter : (afterFlowText admin now s uid raw).1.users = s.users ∨
      (∃ obj, obj = parseDetails (strTrim raw) ∧ obj ≠ [] ∧
        (afterFlowText admin now s uid raw).1.users = upsertAccount s.users uid obj) := by
    unfold afterFlowText
    split
    · exact Or.inl (users_after_done admin now s uid)
    · exact users_after_reconciler admin now s uid raw _ (users_after_tail admin s uid raw)
  unfold handleText myAccountHandler sellHandler flowTextHandler
  dsimp only
  repeat' split
  all_goals
    first
      | exact Or.inl rfl
      | exact hAfter

theorem users_after_photo (now : Nat) (s : BotState) (uid : Nat) (fid : String) :
    (photoHandler now s uid fid).1.users = s.users := by
  unfold photoHandler
  dsimp only
  repeat' split
  all_goals rfl

theorem users_after_action (admin now : Nat) (s : BotState) (uid : Nat) (ap : Bool)
    (txId : Nat) :
    (actionHandler admin now s uid ap txId).1.users = s.users := by
  unfold actionHandler
  repeat' split
  all_goals rfl

/-! ## The stored-details invariant -/

/-- Stored account details are absent or a non-empty mapping whose keys are
all non-empty. -/
def DetailsOk : Option Details → Prop
  | none => True
  | some d => d ≠ [] ∧ ∀ kv ∈ d, kv.1 ≠ ""

/-- All rows of the users table satisfy `DetailsOk`. -/
def UsersOk (us : List UserRow) : Prop :=
  ∀ u ∈ us, DetailsOk u.account_details

theorem objInsert_keys {obj : Details} {k v : String}
    (h : ∀ kv ∈ obj, kv.1 ≠ "") (hk : k ≠ "") :
    ∀ kv ∈ objInsert obj k v, kv.1 ≠ "" := by
  unfold objInsert
  split
  · intro kv hm
    rcases List.mem_map.mp hm with ⟨a, ha, hfa⟩
    by_cases hak : (a.1 == k) = true
    · rw [← hfa]
      simp only [hak, if_true]
      exact hk
    · rw [← hfa]
      simp only [hak]
      simp only [Bool.false_eq_true, if_false]
      exact h a ha
  · intro kv hm
    rcases List.mem_append.mp hm with hm | hm
    · exact h kv hm
    · simp only [List.mem_singleton] at hm
      rw [hm]
      exact hk

theorem parseLine_keys {obj : Details} (line : String)
    (h : ∀ kv ∈ obj, kv.1 ≠ "") :
    ∀ kv ∈ parseLine obj line, kv.1 ≠ "" := by
  unfold parseLine
  dsimp only
  repeat' split
  · exact h
  · exact h
  · exact h
  · exact objInsert_keys h (by assumption)

theorem parseDetails_keys (t : String) : ∀ kv ∈ parseDetails t, kv.1 ≠ "" := by
  unfold parseDetails
  have key : ∀ (ls : List String) (acc : Details), (∀ kv ∈ acc, kv.1 ≠ "") →
      ∀ kv ∈ ls.foldl parseLine acc, kv.1 ≠ "" := by
    intro ls
    induction ls with
    | nil => intro acc hacc; exact hacc
    | cons l rest ih => intro acc hacc; exact ih _ (parseLine_keys l hacc)
  exact key _ [] (by intro kv hkv; cases hkv)

theorem UsersOk_insertSeen {us : List UserRow} (uid now : Nat) (h : UsersOk us) :
    UsersOk (insertSeen us uid now) := by
  unfold insertSeen
  split
  · exact h
  · intro u hu
    rcases List.mem_append.mp hu with hm | hm
    · exact h u hm
    · simp only [List.mem_singleton] at hm
      rw [hm]
      trivial

theorem UsersOk_upsert {us : List UserRow} {obj : Details} (uid : Nat)
    (h : UsersOk us) (hne : obj ≠ []) (hk : ∀ kv ∈ obj, kv.1 ≠ "") :
    UsersOk (upsertAccount us uid obj) := by
  intro u hu
  rcases List.mem_map.mp hu with ⟨a, ha, hfa⟩
  by_cases hid : (a.id == uid) = true
  · rw [← hfa]
    simp only [hid, if_true]
    exact ⟨hne, hk⟩
  · rw [← hfa]
    simp only [hid]
    simp only [Bool.false_eq_true, if_false]
    exact h a ha

theorem UsersOk_step (admin now : Nat) (s : BotState) (e : Event)
    (h : UsersOk s.users) : UsersOk (handleEvent admin now s e).1.users := by
  have hins : UsersOk (insertSeen s.users e.fromId now) := UsersOk_insertSeen _ _ h
  cases e with
  | text uid raw =>
    rcases users_after_handleText admin now { s with users := insertSeen s.users (Event.fromId (.text uid raw)) now } uid raw with
      heq | ⟨obj, hobj, hne, heq⟩
    · rw [handleEvent]
      rw [heq]
      exact hins
    · rw [handleEvent]
      rw [heq]
      exact UsersOk_upsert uid hins hne (hobj ▸ parseDetails_keys (strTrim raw))
  | photo uid fid =>
    rw [handleEvent]
    rw [users_after_photo]
    exact hins
  | action uid ap txId =>
    rw [handleEvent]
    rw [users_after_action]
    exact hins

theorem UsersOk_runEvents (admin : Nat) (es : List Event) :
    ∀ (s : BotState) (now : Nat), UsersOk s.users →
      UsersOk (runEvents admin s es now).users := by
  induction es with
  | nil => intro s now h; exact h
  | cons e rest ih =>
    intro s now h
    rw [runEvents]
    exact ih _ _ (UsersOk_step admin now s e h)

theorem UsersOk_reachable {admin : Nat} {s : BotState} (h : Reachable admin s) :
    UsersOk s.users := by
  rcases h with ⟨es, rfl⟩
  exact UsersOk_runEvents admin es initState 0 (by intro u hu; cases hu)

/-! ## Claim C1 -/

/-- C1, counterexample: after the full intake of transaction 1 the admin
rejects it, and a second button press then APPROVES the rejected transaction —
its status history is `pending, rejected, approved`, which is not a prefix of
`pending → approved → completed` nor of `pending → rejected`; a 'rejected'
transaction changed status on a subsequently handled event. -/
theorem C1_counterexample_reject_then_approve :
    ((runEvents 99 initState
        [.text 5 "Sell Crypto", .text 5 "50", .text 5 "BTC", .photo 5 "f1", .text 5 "/done",
         .action 99 false 1] 0).txs.map Transaction.status = ["rejected"]) ∧
    ((runEvents 99 initState
        [.text 5 "Sell Crypto", .text 5 "50", .text 5 "BTC", .photo 5 "f1", .text 5 "/done",
         .action 99 false 1, .action 99 true 1] 0).txs.map Transaction.status =
      ["approved"]) :=
  ⟨by decide, by decide⟩

/-- C1, amended: once a transaction is 'rejected' or 'completed', no handled
event other than an administrator approve/reject button action ever changes
it (user texts, media and commands leave the row untouched); the admin action
handler itself does not guard terminal statuses, as the counterexample
shows. -/
theorem C1_terminal_immutable_under_nonaction_events
    (admin now : Nat) (s : BotState) (e : Event) (t : Transaction)
    (hN : (s.txs.map Transaction.id).Nodup)
    (hE : e.isAction = false)
    (ht : getTxById s.txs t.id = some t)
    (hSt : t.status = "rejected" ∨ t.status = "completed") :
    getTxById (handleEvent admin now s e).1.txs t.id = some t := by
  cases e with
  | action uid ap txId => simp [Event.isAction] at hE
  | photo uid fid =>
    have hU : handleEvent admin now s (.photo uid fid) =
        photoHandler now { s with users := insertSeen s.users uid now } uid fid := rfl
    rw [hU, txs_after_photo]
    exact ht
  | text uid raw =>
    have hU : handleEvent admin now s (.text uid raw) =
        handleText admin now { s with users := insertSeen s.users uid now } uid raw := rfl
    rw [hU]
    rcases txs_after_handleText admin now
        { s with users := insertSeen s.users uid now } uid raw with
      heq | ⟨flow, heq⟩ | ⟨la, note, hla, heq⟩
    · rw [heq]
      exact ht
    · rw [heq]
      exact getTxById_append_left ht _
    · rw [heq]
      have hla' : latestApproved s.txs uid = some la := hla
      obtain ⟨hmemla, _, hstla⟩ := latestApproved_spec hla'
      have hmemt : t ∈ s.txs := List.mem_of_find?_eq_some ht
      have hne : t.id ≠ la.id := by
        intro hid
        have heqt : t = la :=
          List.inj_on_of_nodup_map (f := Transaction.id) hN hmemt hmemla hid
        rw [heqt, hstla] at hSt
        exact absurd hSt (by decide)
      have hbeq : (t.id == la.id) = false := by
        rw [beq_eq_false_iff_ne]
        exact hne
      have hupd : getTxById (updateTxStatus s.txs la.id "completed" note) t.id = some t := by
        rw [getTxById_updateTxStatus, ht]
        simp [Option.map, hbeq]
      exact hupd

/-- A state holding one rejected transaction, for the C1 witness. -/
def c1tx : Transaction :=
  { id := 1, user_id := 5, type := "crypto", amount := some "50",
    currency_or_card := some "BTC", status := "rejected",
    proof_files := [{ file_id := "f1", file_type := "photo", date := 0 }],
    created_at := 0, admin_note := some "Rejected by admin 99 at 1" }

/-- A state holding one rejected transaction, for the C1 witness. -/
def C1state : BotState :=
  { users := [{ id := 5, account_details := none, created_at := 0 }],
    txs := [c1tx], flows := [], nextId := 2 }

/-- C1 witness: a user text arriving while transaction 1 is rejected leaves
the rejected row untouched. -/
theorem C1_terminal_immutable_witness :
    getTxById (handleEvent 99 7 C1state (.text 5 "hello")).1.txs c1tx.id = some c1tx :=
  C1_terminal_immutable_under_nonaction_events 99 7 C1state (.text 5 "hello") c1tx
    (by decide) (by decide) (by decide) (Or.inl (by decide))

/-! ## Claim C2 -/

/-- C2, counterexample: a non-administrator pressing approve on transaction 1
from a fresh database does receive the visible-only-to-invoker notice and no
transaction changes, but the handling is not free of stored-state change: the
per-update middleware (`insertUserStmt`) registers the unseen invoker in the
users table, so the state differs from the initial state. -/
theorem C2_counterexample_registers_unseen_invoker :
    (handleEvent 99 0 initState (.action 42 true 1)).1 ≠ initState ∧
    (handleEvent 99 0 initState (.action 42 true 1)).1.users =
      [{ id := 42, account_details := none, created_at := 0 }] ∧
    (handleEvent 99 0 initState (.action 42 true 1)).1.txs = initState.txs ∧
    (handleEvent 99 0 initState (.action 42 true 1)).2 =
      [Output.answerCb onlyAdminActionMsg true] :=
  ⟨by decide, by decide, by decide, by decide⟩

/-- C2, amended: an approve/reject action from a non-administrator, for any
transaction id, changes no transaction, no flow and no account details — the
only stored-state change is the idempotent first-seen registration of the
invoker performed by the middleware for every update — and the invoker gets
the visible-only-to-invoker alert. -/
theorem C2_nonadmin_action_alert_only (admin now : Nat) (s : BotState) (uid : Nat)
    (ap : Bool) (txId : Nat) (h : uid ≠ admin) :
    handleEvent admin now s (.action uid ap txId) =
      ({ s with users := insertSeen s.users uid now },
       [Output.answerCb onlyAdminActionMsg true]) :=
  nonadmin_action_step admin now s uid ap txId h

/-- A one-user state for the C2 witness. -/
def C2state : BotState :=
  { users := [{ id := 5, account_details := none, created_at := 0 }],
    txs := [], flows := [], nextId := 1 }

/-- C2 witness at a concrete non-admin id and transaction id. -/
theorem C2_nonadmin_action_witness :
    handleEvent 99 3 C2state (.action 42 true 1) =
      ({ C2state with users := insertSeen C2state.users 42 3 },
       [Output.answerCb onlyAdminActionMsg true]) :=
  C2_nonadmin_action_alert_only 99 3 C2state 42 true 1 (by decide)

/-! ## Running batches of events (for claim C3) -/

theorem runEvents_append (admin : Nat) (es1 es2 : List Event) :
    ∀ (s : BotState) (now : Nat),
      runEvents admin s (es1 ++ es2) now =
        runEvents admin (runEvents admin s es1 now) es2 (now + es1.length) := by
  induction es1 with
  | nil =>
    intro s now
    simp [runEvents]
  | cons e rest ih =>
    intro s now
    rw [List.cons_append, runEvents, runEvents, ih]
    have h : now + 1 + rest.length = now + (e :: rest).length := by
      simp only [List.length_cons]
      omega
    rw [h]

theorem runEvents_split (admin : Nat) (es1 es2 : List Event) (s : BotState) (now : Nat) :
    ∃ n2 : Nat, runEvents admin s (es1 ++ es2) now =
      runEvents admin (runEvents admin s es1 now) es2 n2 :=
  ⟨now + es1.length, runEvents_append admin es1 es2 s now⟩

/-- Running any batch of photo events while the flow awaits proof appends one
attachment per photo and touches neither the transaction table nor the id
counter. -/
theorem photos_run (admin u : Nat) (fids : List String) :
    ∀ (s : BotState) (flow : SaleFlow) (now : Nat),
      getFlow s.flows u = some flow → flow.step = "await_proof" →
      ∃ (s' : BotState) (atts : List Attachment),
        runEvents admin s (fids.map (fun f => Event.photo u f)) now = s' ∧
        atts.length = fids.length ∧
        s'.txs = s.txs ∧ s'.nextId = s.nextId ∧
        getFlow s'.flows u = some { flow with proof := flow.proof ++ atts } := by
  induction fids with
  | nil =>
    intro s flow now hf _
    refine ⟨s, [], rfl, rfl, rfl, rfl, ?_⟩
    rw [List.append_nil]
    exact hf
  | cons fid rest ih =>
    intro s flow now hf hstep
    rw [List.map_cons, runEvents]
    rw [photo_step admin now s u fid flow hf hstep]
    obtain ⟨s', atts, hrun, hlen, htxs, hnext, hflow⟩ :=
      ih { s with users := insertSeen s.users u now,
                  flows := setFlow s.flows u
                    (some { flow with proof := flow.proof ++
                      [{ file_id := fid, file_type := "photo", date := now }] }) }
        { flow with proof := flow.proof ++
            [{ file_id := fid, file_type := "photo", date := now }] }
        (now + 1) (getFlow_setFlow_some _ _ _) hstep
    refine ⟨s', { file_id := fid, file_type := "photo", date := now } :: atts,
      hrun, ?_, htxs, hnext, ?_⟩
    · simp [hlen]
    · rw [hflow]
      simp [List.append_assoc]

/-- The three text steps of a clean intake put the user at the awaiting-proof
step with an empty attachment list, touching neither the transaction table
nor the id counter. -/
theorem intake_texts_run (admin now : Nat) (s : BotState) (u : Nat)
    (tIntent tAmt tCp : String)
    (hI1 : isCmd "start" tIntent = false) (hI2 : hearsMyAccount tIntent = false)
    (hI3 : hearsSell tIntent = true)
    (hA1 : isCmd "start" tAmt = false) (hA2 : hearsMyAccount tAmt = false)
    (hA3 : hearsSell tAmt = false)
    (hC1 : isCmd "start" tCp = false) (hC2 : hearsMyAccount tCp = false)
    (hC3 : hearsSell tCp = false) :
    ∃ S3 : BotState,
      runEvents admin s [.text u tIntent, .text u tAmt, .text u tCp] now = S3 ∧
      S3.txs = s.txs ∧ S3.nextId = s.nextId ∧
      ∃ flow : SaleFlow,
        getFlow S3.flows u = some flow ∧ flow.step = "await_proof" ∧ flow.proof = [] := by
  rw [runEvents, runEvents, runEvents, runEvents]
  rw [sell_step admin now s u tIntent hI1 hI2 hI3]
  rw [amount_step admin (now + 1) _ u tAmt (freshFlow (sellType tIntent)) hA1 hA2 hA3
    (getFlow_setFlow_some _ _ _) rfl]
  rw [currency_step admin (now + 1 + 1) _ u tCp _ hC1 hC2 hC3
    (getFlow_setFlow_some _ _ _) rfl]
  exact ⟨_, rfl, rfl, rfl, _, getFlow_setFlow_some _ _ _, rfl, rfl⟩

/-! ## Claim C3 -/

/-- C3, counterexample: the claimed property quantifies over every non-empty
amount text, but a non-empty amount text that happens to match an
earlier-registered trigger is intercepted before the flow handler: with
amount text "My Account" (non-empty), the full sequence intent → amount →
counterparty → media → finish creates NO transaction at all. -/
theorem C3_counterexample_keyword_amount :
    ("My Account" ≠ "") ∧
    (runEvents 99 initState
      [.text 5 "Sell Crypto", .text 5 "My Account", .text 5 "BTC", .photo 5 "f1",
       .text 5 "/done"] 0).txs = [] :=
  ⟨by decide, by decide⟩

/-- C3, amended: for a user with no active flow, the sequence intent
selection, non-empty amount text, non-empty counterparty text, at least one
media item, finish command creates exactly one new pending transaction with
a non-empty attachment list and leaves the flow absent — provided the two
free-text answers are not themselves intercepted by the earlier-registered
triggers (the start command, the account-view keyword, or an intent
keyword). -/
theorem C3_clean_flow_completion
    (admin now : Nat) (s : BotState) (u : Nat) (tIntent tAmt tCp : String)
    (fids : List String)
    (h0 : getFlow s.flows u = none)
    (hI1 : isCmd "start" tIntent = false) (hI2 : hearsMyAccount tIntent = false)
    (hI3 : hearsSell tIntent = true)
    (hA0 : tAmt ≠ "") (hA1 : isCmd "start" tAmt = false)
    (hA2 : hearsMyAccount tAmt = false) (hA3 : hearsSell tAmt = false)
    (hC0 : tCp ≠ "") (hC1 : isCmd "start" tCp = false)
    (hC2 : hearsMyAccount tCp = false) (hC3 : hearsSell tCp = false)
    (hfids : fids ≠ []) :
    ∃ tx : Transaction,
      (runEvents admin s
        ([.text u tIntent, .text u tAmt, .text u tCp] ++
          fids.map (fun f => Event.photo u f) ++ [.text u "/done"]) now).txs =
        s.txs ++ [tx] ∧
      tx.status = "pending" ∧ tx.proof_files ≠ [] ∧
      getFlow (runEvents admin s
        ([.text u tIntent, .text u tAmt, .text u tCp] ++
          fids.map (fun f => Event.photo u f) ++ [.text u "/done"]) now).flows u = none := by
  obtain ⟨S3, hS3run, hS3txs, _, flow2, hS3flow, hstep2, _⟩ :=
    intake_texts_run admin now s u tIntent tAmt tCp hI1 hI2 hI3 hA1 hA2 hA3 hC1 hC2 hC3
  rw [List.append_assoc]
  obtain ⟨T1, hsplit1⟩ := runEvents_split admin
    [.text u tIntent, .text u tAmt, .text u tCp]
    (fids.map (fun f => Event.photo u f) ++ [.text u "/done"]) s now
  rw [hsplit1, hS3run]
  obtain ⟨T2, hsplit2⟩ := runEvents_split admin
    (fids.map (fun f => Event.photo u f)) [.text u "/done"] S3 T1
  rw [hsplit2]
  obtain ⟨s4, atts, hrun, hlen, htxs, _, hflow⟩ :=
    photos_run admin u fids S3 flow2 T1 hS3flow hstep2
  rw [hrun, runEvents, runEvents]
  have hatts : atts ≠ [] := by
    intro hnil
    rw [hnil] at hlen
    exact hfids (List.length_eq_zero.mp hlen.symm)
  have hp : flow2.proof ++ atts ≠ [] := by
    intro hnil
    exact hatts (List.append_eq_nil.mp hnil).2
  rw [done_step admin T2 s4 u { flow2 with proof := flow2.proof ++ atts } hflow hstep2 hp]
  refine ⟨newTx s4.nextId u { flow2 with proof := flow2.proof ++ atts } T2, ?_, rfl, hp, ?_⟩
  · rw [htxs, hS3txs]
  · exact getFlow_setFlow_none _ _

/-- C3 witness: the clean end-to-end intake with two photos on a fresh
database. -/
theorem C3_clean_flow_witness :
    ∃ tx : Transaction,
      (runEvents 99 initState
        ([.text 5 "Sell Crypto", .text 5 "50", .text 5 "BTC"] ++
          (["f1", "f2"] : List String).map (fun f => Event.photo 5 f) ++
          [.text 5 "/done"]) 0).txs = initState.txs ++ [tx] ∧
      tx.status = "pending" ∧ tx.proof_files ≠ [] ∧
      getFlow (runEvents 99 initState
        ([.text 5 "Sell Crypto", .text 5 "50", .text 5 "BTC"] ++
          (["f1", "f2"] : List String).map (fun f => Event.photo 5 f) ++
          [.text 5 "/done"]) 0).flows 5 = none :=
  C3_clean_flow_completion 99 0 initState 5 "Sell Crypto" "50" "BTC" ["f1", "f2"]
    (by decide) (by decide) (by decide) (by decide) (by decide) (by decide)
    (by decide) (by decide) (by decide) (by decide) (by decide) (by decide)
    (by decide)

/-! ## More helper lemmas for the reconciler claims -/

theorem any_insertSeen (us : List UserRow) (uid now : Nat) :
    (insertSeen us uid now).any (fun r => r.id == uid) = true := by
  unfold insertSeen
  split
  · assumption
  · refine List.any_eq_true.mpr ⟨{ id := uid, account_details := none, created_at := now }, ?_, ?_⟩
    · exact List.mem_append_right _ (List.mem_singleton.mpr rfl)
    · exact beq_self_eq_true uid

theorem savedOf_upsert_of_present {us : List UserRow} {uid : Nat} (obj : Details)
    (h : us.any (fun r => r.id == uid) = true) :
    savedOf (upsertAccount us uid obj) uid = some obj := by
  unfold savedOf getUser upsertAccount
  rw [find?_map_of_pred_eq]
  · cases hf : us.find? (fun r => r.id == uid) with
    | none =>
      rcases List.any_eq_true.mp h with ⟨r, hr, hpr⟩
      rw [List.find?_eq_none] at hf
      exact absurd hpr (hf r hr)
    | some r =>
      have hpr := List.find?_some hf
      simp only [Option.map_some']
      simp only [hpr, if_true]
      rfl
  · intro a
    by_cases ha : (a.id == uid) = true
    · simp [ha]
    · simp [ha]

/-! ## Claim C4 -/

/-- C4: the finish command with an awaiting-proof flow holding zero
attachments creates no transaction, leaves the flow (and the whole state
apart from the idempotent middleware user registration) unchanged, and
instructs the user to upload at least one image. -/
theorem C4_done_without_proof_rejected (admin now : Nat) (s : BotState) (u : Nat)
    (flow : SaleFlow) (hf : getFlow s.flows u = some flow)
    (hstep : flow.step = "await_proof") (hp : flow.proof = []) :
    handleEvent admin now s (.text u "/done") =
      ({ s with users := insertSeen s.users u now }, [.reply u needProofMsg]) := by
  have c1 : isCmd "start" "/done" = false := by decide
  have c2 : hearsMyAccount "/done" = false := by decide
  have c3 : hearsSell "/done" = false := by decide
  have c4 : isCmd "done" "/done" = true := by decide
  simp [handleEvent, Event.fromId, handleText, c1, c2, c3, flowTextHandler, hf, hstep,
        afterFlowText, c4, doneHandler, hp]

/-- An awaiting-proof flow with no attachments, for the C4 witness. -/
def C4state : BotState :=
  { users := [{ id := 7, account_details := none, created_at := 0 }],
    txs := [],
    flows := [(7, { step := "await_proof", type := "crypto", amount := some "50",
                    currency_or_card := some "BTC", proof := [] })],
    nextId := 1 }

/-- C4 witness: `/done` with zero attachments at a concrete state. -/
theorem C4_done_without_proof_witness :
    handleEvent 99 3 C4state (.text 7 "/done") =
      ({ C4state with users := insertSeen C4state.users 7 3 },
       [.reply 7 needProofMsg]) :=
  C4_done_without_proof_rejected 99 3 C4state 7
    { step := "await_proof", type := "crypto", amount := some "50",
      currency_or_card := some "BTC", proof := [] }
    (by decide) (by decide) (by decide)

/-! ## Claim C5 -/

/-- An approved transaction for user 7, used by the C5 counterexample. -/
def c5tx : Transaction :=
  { id := 1, user_id := 7, type := "crypto", amount := some "50",
    currency_or_card := some "BTC", status := "approved",
    proof_files := [{ file_id := "f1", file_type := "photo", date := 0 }],
    created_at := 0, admin_note := some "Approved by admin 99 at 1" }

/-- User 7 holds a latest approved transaction and stored details, but also an
active flow at the amount step, for the C5 counterexample. -/
def C5state : BotState :=
  { users := [{ id := 7, account_details := some [("a", "1")], created_at := 0 }],
    txs := [c5tx],
    flows := [(7, freshFlow "crypto")],
    nextId := 2 }

/-- C5, counterexample: user 7 has a latest approved-and-uncompleted
transaction and stored account details, and sends exactly the confirmation
token — yet the transaction is NOT completed: an active flow at the amount
step consumes the text as the amount, so the status stays 'approved'. -/
theorem C5_counterexample_flow_eats_confirm :
    (savedOf C5state.users 7).isSome = true ∧
    latestApproved C5state.txs 7 = some c5tx ∧
    strUpper (strTrim "CONFIRM") = "CONFIRM" ∧
    (handleEvent 99 4 C5state (.text 7 "CONFIRM")).1.txs.map Transaction.status =
      ["approved"] ∧
    (getFlow (handleEvent 99 4 C5state (.text 7 "CONFIRM")).1.flows 7).map
      SaleFlow.amount = some (some "CONFIRM") :=
  ⟨by decide, by decide, by decide, by decide, by decide⟩

/-- C5, amended: when the user's flow is absent (so the text actually reaches
the post-approval handler, i.e. it is not intercepted by the start command,
keyword triggers, the finish command, or an active text-consuming flow step),
a text equal to the confirmation token completes the latest approved
transaction and leaves the stored account details exactly unchanged. -/
theorem C5_confirm_completes_keeps_details (admin now : Nat) (s : BotState) (u : Nat)
    (raw : String) (la : Transaction)
    (h1 : isCmd "start" raw = false) (h2 : hearsMyAccount raw = false)
    (h3 : hearsSell raw = false) (h4 : isCmd "done" raw = false)
    (hf : getFlow s.flows u = none)
    (hc : strUpper (strTrim raw) = "CONFIRM")
    (hs : (savedOf s.users u).isSome = true)
    (hla : latestApproved s.txs u = some la) :
    (handleEvent admin now s (.text u raw)).1 =
      { s with txs := updateTxStatus s.txs la.id "completed"
                 ("User confirmed saved details at " ++ toString now) } ∧
    (handleEvent admin now s (.text u raw)).1.users = s.users ∧
    savedOf (handleEvent admin now s (.text u raw)).1.users u = savedOf s.users u := by
  rw [confirm_step admin now s u raw la h1 h2 h3 h4 hf hc hs hla]
  exact ⟨rfl, rfl, rfl⟩

/-- Same situation as `C5state` but with no active flow, for the C5 witness. -/
def C5wtx : Transaction :=
  { id := 1, user_id := 7, type := "crypto", amount := some "50",
    currency_or_card := some "BTC", status := "approved",
    proof_files := [{ file_id := "f1", file_type := "photo", date := 0 }],
    created_at := 0, admin_note := some "Approved by admin 99 at 1" }

/-- Same situation as `C5state` but with no active flow, for the C5 witness. -/
def C5wstate : BotState :=
  { users := [{ id := 7, account_details := some [("a", "1"), ("b", "2")], created_at := 0 }],
    txs := [C5wtx],
    flows := [],
    nextId := 2 }

/-- C5 witness: CONFIRM from a flow-less user completes the approved
transaction and keeps the stored details. -/
theorem C5_confirm_witness :
    (handleEvent 99 4 C5wstate (.text 7 "CONFIRM")).1 =
      { C5wstate with txs := updateTxStatus C5wstate.txs C5wtx.id "completed"
                        ("User confirmed saved details at " ++ toString 4) } ∧
    (handleEvent 99 4 C5wstate (.text 7 "CONFIRM")).1.users = C5wstate.users ∧
    savedOf (handleEvent 99 4 C5wstate (.text 7 "CONFIRM")).1.users 7 =
      savedOf C5wstate.users 7 :=
  C5_confirm_completes_keeps_details 99 4 C5wstate 7 "CONFIRM" C5wtx
    (by decide) (by decide) (by decide) (by decide) (by decide) (by decide)
    (by decide) (by decide)

/-! ## Claim C6 -/

/-- An approved transaction for user 7, used by the C6 counterexample. -/
def c6tx : Transaction :=
  { id := 1, user_id := 7, type := "crypto", amount := some "50",
    currency_or_card := some "BTC", status := "approved",
    proof_files := [{ file_id := "f1", file_type := "photo", date := 0 }],
    created_at := 0, admin_note := some "Approved by admin 99 at 1" }

/-- User 7 holds a latest approved transaction and stored details `a: 1`, and
an active flow at the amount step, for the C6 counterexample. -/
def C6state : BotState :=
  { users := [{ id := 7, account_details := some [("a", "1")], created_at := 0 }],
    txs := [c6tx],
    flows := [(7, freshFlow "crypto")],
    nextId := 2 }

/-- C6, counterexample: user 7 holds a latest approved-and-uncompleted
transaction and sends `b: 9`, which contains ':' and parses to one pair — yet
the stored details are NOT replaced and the transaction is NOT completed: the
active amount-step flow consumes the text first. -/
theorem C6_counterexample_flow_eats_details :
    latestApproved C6state.txs 7 = some c6tx ∧
    parseDetails (strTrim "b: 9") = [("b", "9")] ∧
    savedOf (handleEvent 99 4 C6state (.text 7 "b: 9")).1.users 7 = some [("a", "1")] ∧
    (handleEvent 99 4 C6state (.text 7 "b: 9")).1.txs.map Transaction.status =
      ["approved"] :=
  ⟨by decide, by decide, by decide, by decide⟩

/-- C6, amended: when the user's flow is absent (so the text reaches the
post-approval handler), a non-CONFIRM text containing ':' that parses to at
least one pair replaces the stored account details wholesale with exactly the
parsed mapping and completes the latest approved transaction. -/
theorem C6_details_overwrite_completes (admin now : Nat) (s : BotState) (u : Nat)
    (raw : String) (la : Transaction) (obj : Details)
    (h1 : isCmd "start" raw = false) (h2 : hearsMyAccount raw = false)
    (h3 : hearsSell raw = false) (h4 : isCmd "done" raw = false)
    (hf : getFlow s.flows u = none)
    (hc : strUpper (strTrim raw) ≠ "CONFIRM")
    (hcol : containsChar (strTrim raw) ':' = true)
    (hobj : parseDetails (strTrim raw) = obj) (hne : obj ≠ [])
    (hla : latestApproved s.txs u = some la) :
    (handleEvent admin now s (.text u raw)).1 =
      { s with users := upsertAccount (insertSeen s.users u now) u obj,
               txs := updateTxStatus s.txs la.id "completed"
                 ("User provided details at " ++ toString now) } ∧
    savedOf (handleEvent admin now s (.text u raw)).1.users u = some obj := by
  subst hobj
  rw [details_step admin now s u raw la h1 h2 h3 h4 hf hc hcol hne hla]
  refine ⟨rfl, ?_⟩
  exact savedOf_upsert_of_present _ (any_insertSeen s.users u now)

/-- Approved transaction and stored details `a: 1, b: 2`, no flow, for the
C6 witness (the spec's own reconciliation-determinism example). -/
def C6wstate : BotState :=
  { users := [{ id := 7, account_details := some [("a", "1"), ("b", "2")], created_at := 0 }],
    txs := [c6tx],
    flows := [],
    nextId := 2 }

/-- C6 witness: `a: 9\nc: 3` overwrites the stored details to exactly
`{a: 9, c: 3}` (key `b` does not survive) and completes the transaction. -/
theorem C6_details_overwrite_witness :
    (handleEvent 99 4 C6wstate (.text 7 "a: 9\nc: 3")).1 =
      { C6wstate with
          users := upsertAccount (insertSeen C6wstate.users 7 4) 7 [("a", "9"), ("c", "3")],
          txs := updateTxStatus C6wstate.txs c6tx.id "completed"
            ("User provided details at " ++ toString 4) } ∧
    savedOf (handleEvent 99 4 C6wstate (.text 7 "a: 9\nc: 3")).1.users 7 =
      some [("a", "9"), ("c", "3")] :=
  C6_details_overwrite_completes 99 4 C6wstate 7 "a: 9\nc: 3" c6tx [("a", "9"), ("c", "3")]
    (by decide) (by decide) (by decide) (by decide) (by decide) (by decide)
    (by decide) (by decide) (by decide) (by decide)

/-! ## Claim C7 -/

/-- C7: the account-details parser splits on newlines, trims each line, splits
at the first ':', and discards lines without a non-empty key — concretely,
`"   :   \nvalid: 1"` parses to exactly `{valid: 1}` — and when a
':'-containing text reaching the post-approval handler parses to zero pairs,
the handler replies asking for a retry while the transaction table (so the
'approved' status) and the stored account details stay unchanged. -/
theorem C7_parser_and_zero_pair_guard (admin now : Nat) (s : BotState) (u : Nat)
    (raw : String) (la : Transaction)
    (h1 : isCmd "start" raw = false) (h2 : hearsMyAccount raw = false)
    (h3 : hearsSell raw = false) (h4 : isCmd "done" raw = false)
    (hf : getFlow s.flows u = none)
    (hc : strUpper (strTrim raw) ≠ "CONFIRM")
    (hcol : containsChar (strTrim raw) ':' = true)
    (hobj : parseDetails (strTrim raw) = [])
    (hla : latestApproved s.txs u = some la) :
    parseDetails "   :   \nvalid: 1" = [("valid", "1")] ∧
    handleEvent admin now s (.text u raw) =
      ({ s with users := insertSeen s.users u now }, [.reply u parseFailMsg]) ∧
    savedOf (handleEvent admin now s (.text u raw)).1.users u = savedOf s.users u := by
  have hstep := zero_pair_step admin now s u raw la h1 h2 h3 h4 hf hc hcol hobj hla
  refine ⟨by decide, hstep, ?_⟩
  rw [hstep]
  exact savedOf_insertSeen s.users u now

/-- An approved transaction for user 7 with stored details, no flow, for the
C7 witness. -/
def C7state : BotState :=
  { users := [{ id := 7, account_details := some [("a", "1")], created_at := 0 }],
    txs := [{ id := 1, user_id := 7, type := "crypto", amount := some "50",
              currency_or_card := some "BTC", status := "approved",
              proof_files := [{ file_id := "f1", file_type := "photo", date := 0 }],
              created_at := 0, admin_note := some "Approved by admin 99 at 1" }],
    flows := [],
    nextId := 2 }

/-- C7 witness: the text `":::"` contains ':' but parses to zero pairs; the
handler replies with the retry prompt and changes nothing. -/
theorem C7_parser_witness :
    parseDetails "   :   \nvalid: 1" = [("valid", "1")] ∧
    handleEvent 99 4 C7state (.text 7 ":::") =
      ({ C7state with users := insertSeen C7state.users 7 4 }, [.reply 7 parseFailMsg]) ∧
    savedOf (handleEvent 99 4 C7state (.text 7 ":::")).1.users 7 =
      savedOf C7state.users 7 :=
  C7_parser_and_zero_pair_guard 99 4 C7state 7 ":::"
    { id := 1, user_id := 7, type := "crypto", amount := some "50",
      currency_or_card := some "BTC", status := "approved",
      proof_files := [{ file_id := "f1", file_type := "photo", date := 0 }],
      created_at := 0, admin_note := some "Approved by admin 99 at 1" }
    (by decide) (by decide) (by decide) (by decide) (by decide) (by decide)
    (by decide) (by decide) (by decide)

/-! ## Claim C8 -/

/-- One known user, no flow, no transactions, for the C8 counterexample. -/
def C8state : BotState :=
  { users := [{ id := 5, account_details := none, created_at := 0 }],
    txs := [], flows := [], nextId := 1 }

/-- C8, counterexample: a plain text ("hello") from a user with no active flow
that the reconciler declines is NOT answered with a guidance message — the
program sends nothing at all (the output list is empty); the no-state-change
half of the claim does hold here. -/
theorem C8_counterexample_no_guidance_reply :
    getFlow C8state.flows 5 = none ∧
    latestApproved C8state.txs 5 = none ∧
    handleEvent 99 0 C8state (.text 5 "hello") = (C8state, []) :=
  ⟨by decide, by decide, by decide⟩

/-- C8, amended: a text from a flow-less user that no handler matches (not a
recognized command or keyboard keyword, and declined by the reconciler)
changes no flow, no transaction and no account details — only the idempotent
middleware user registration touches the state — but, contrary to the claim,
the user receives NO guidance message: the output list is empty. -/
theorem C8_unmatched_text_silent_no_change (admin now : Nat) (s : BotState) (u : Nat)
    (raw : String)
    (h1 : isCmd "start" raw = false) (h2 : hearsMyAccount raw = false)
    (h3 : hearsSell raw = false) (h4 : isCmd "done" raw = false)
    (h5 : isCmd "broadcast" raw = false) (h6 : isCmd "help" raw = false)
    (hf : getFlow s.flows u = none)
    (hdecl : latestApproved s.txs u = none ∨
      (¬(strUpper (strTrim raw) = "CONFIRM" ∧ (savedOf s.users u).isSome = true) ∧
        containsChar (strTrim raw) ':' = false)) :
    handleEvent admin now s (.text u raw) =
      ({ s with users := insertSeen s.users u now }, []) :=
  decline_step admin now s u raw h1 h2 h3 h4 h5 h6 hf hdecl

/-- C8 witness: "hello" from a known flow-less user with no approved
transaction. -/
theorem C8_unmatched_text_witness :
    handleEvent 99 0 C8state (.text 5 "hello") =
      ({ C8state with users := insertSeen C8state.users 5 0 }, []) :=
  C8_unmatched_text_silent_no_change 99 0 C8state 5 "hello"
    (by decide) (by decide) (by decide) (by decide) (by decide) (by decide)
    (by decide) (Or.inl (by decide))

/-! ## Claim C9 -/

/-- User 7 at the amount step (the step entered right after intent
selection), for the C9 counterexample. -/
def C9state : BotState :=
  { users := [{ id := 7, account_details := none, created_at := 0 }],
    txs := [], flows := [(7, freshFlow "crypto")], nextId := 1 }

/-- C9, counterexample: at the amount step the text `" 50 "` is stored as
`"50"`, i.e. the handler stores the TRIMMED text, not the raw text verbatim;
the flow does advance to the counterparty step. -/
theorem C9_counterexample_amount_trimmed :
    (getFlow (handleEvent 99 1 C9state (.text 7 " 50 ")).1.flows 7).map
      SaleFlow.amount = some (some "50") ∧
    (" 50 " : String) ≠ "50" ∧
    (getFlow (handleEvent 99 1 C9state (.text 7 " 50 ")).1.flows 7).map
      SaleFlow.step = some "currency" :=
  ⟨by decide, by decide, by decide⟩

/-- C9, amended: at the amount step, any non-empty text that is not
intercepted by an earlier-registered trigger (start command, account-view
keyword, intent keyword) is stored — whitespace-trimmed, otherwise without
validation — as the flow's amount, and the flow advances to the counterparty
step. -/
theorem C9_amount_step_stores_trimmed (admin now : Nat) (s : BotState) (u : Nat)
    (raw : String) (flow : SaleFlow)
    (h0 : raw ≠ "")
    (h1 : isCmd "start" raw = false) (h2 : hearsMyAccount raw = false)
    (h3 : hearsSell raw = false)
    (hf : getFlow s.flows u = some flow) (hstep : flow.step = "choose_type") :
    handleEvent admin now s (.text u raw) =
      ({ s with users := insertSeen s.users u now,
                flows := setFlow s.flows u
                  (some { flow with amount := some (strTrim raw), step := "currency" }) },
       [.reply u (if flow.type = "crypto" then cryptoPrompt else giftcardPrompt)]) :=
  amount_step admin now s u raw flow h1 h2 h3 hf hstep

/-- C9 witness at the concrete state and text `" 50 "`. -/
theorem C9_amount_step_witness :
    handleEvent 99 1 C9state (.text 7 " 50 ") =
      ({ C9state with users := insertSeen C9state.users 7 1,
                      flows := setFlow C9state.flows 7
                        (some { freshFlow "crypto" with
                                amount := some (strTrim " 50 "), step := "currency" }) },
       [.reply 7 (if (freshFlow "crypto").type = "crypto" then cryptoPrompt
                  else giftcardPrompt)]) :=
  C9_amount_step_stores_trimmed 99 1 C9state 7 " 50 " (freshFlow "crypto")
    (by decide) (by decide) (by decide) (by decide) (by decide) (by decide)

/-! ## Claim C10 -/

/-- C10: on every reachable state, every stored account-details mapping is
absent or non-empty with non-empty keys, and the Approval Coordinator's
non-empty-mapping check agrees with the Reconciler's mere-existence check. -/
theorem C10_persisted_details_checks_agree (admin : Nat) (s : BotState)
    (h : Reachable admin s) :
    ∀ u ∈ s.users, DetailsOk u.account_details ∧
      coordinatorSavedCheck u.account_details = reconcilerSavedCheck u.account_details := by
  intro u hu
  have hd := UsersOk_reachable h u hu
  refine ⟨hd, ?_⟩
  cases hdet : u.account_details with
  | none => rfl
  | some d =>
    rw [hdet] at hd
    rcases hd with ⟨hne, _⟩
    cases d with
    | nil => exact absurd rfl hne
    | cons a l => rfl

/-- C10 witness: in the reachable state obtained by a full intake, approval
and manual details entry, user 5's row stores the mapping `{a: 1}` and the
two checks agree on it. -/
theorem C10_persisted_details_witness :
    DetailsOk ({ id := 5, account_details := some [("a", "1")], created_at := 0 } :
      UserRow).account_details ∧
    coordinatorSavedCheck ({ id := 5, account_details := some [("a", "1")], created_at := 0 } :
        UserRow).account_details =
      reconcilerSavedCheck ({ id := 5, account_details := some [("a", "1")], created_at := 0 } :
        UserRow).account_details :=
  C10_persisted_details_checks_agree 99
    (runEvents 99 initState
      [.text 5 "Sell Crypto", .text 5 "50", .text 5 "BTC", .photo 5 "f1", .text 5 "/done",
       .action 99 true 1, .text 5 "a: 1"] 0)
    ⟨[.text 5 "Sell Crypto", .text 5 "50", .text 5 "BTC", .photo 5 "f1", .text 5 "/done",
      .action 99 true 1, .text 5 "a: 1"], rfl⟩
    { id := 5, account_details := some [("a", "1")], created_at := 0 }
    (by decide)
